import Mathlib

/-!
Verification of the MommyNature location-extraction and scoring pipeline
(`backend/reddit_scraper.py`, `backend/google_places.py`) against its design
specification.  Python floats are modelled as rationals, Python strings as
Lean strings manipulated through character lists, and the external places
directory as a function parameter.
-/

namespace MommyNature

/-! ### Python string primitives -/

/-- Python `str.lower()` (ASCII). -/
def pyLower (s : String) : String := ⟨s.data.map Char.toLower⟩

/-- Python `str.strip()`: remove leading and trailing whitespace. -/
def pyStrip (s : String) : String :=
  ⟨((s.data.dropWhile Char.isWhitespace).reverse.dropWhile Char.isWhitespace).reverse⟩

/-- Python `s.startswith(p)`. -/
def pyStartsWith (s p : String) : Bool := p.data.isPrefixOf s.data

/-- Python `needle in hay` substring test. -/
def pyContains (hay needle : String) : Bool :=
  hay.data.tails.any (fun t => needle.data.isPrefixOf t)

/-- Python `s[n:]` (drop the first `n` characters). -/
def pyDrop (s : String) (n : Nat) : String := ⟨s.data.drop n⟩

/-- Python `s[:n]` (take the first `n` characters). -/
def pyTake (s : String) (n : Nat) : String := ⟨s.data.take n⟩

/-- Python `len(s)`. -/
def pyLen (s : String) : Nat := s.data.length

def pyTitleAux : List Char → Bool → List Char
  | [], _ => []
  | c :: rest, prevCased =>
    if c.isAlpha then
      (if prevCased then c.toLower else c.toUpper) :: pyTitleAux rest true
    else
      c :: pyTitleAux rest false

/-- Python `str.title()` (ASCII): first letter of each alphabetic run
uppercased, the rest lowercased. -/
def pyTitle (s : String) : String := ⟨pyTitleAux s.data false⟩

/-- Python `str.replace(pat, rep)` on character lists: replace every
non-overlapping occurrence, scanning left to right.  Structural recursion on
a fuel argument (initialised to the list length, which always suffices for a
non-empty pattern; the source never replaces an empty pattern). -/
def pyReplaceAux (pat rep : List Char) : Nat → List Char → List Char
  | _, [] => []
  | 0, l => l
  | fuel + 1, c :: rest =>
    match pat with
    | [] => c :: rest
    | _ :: ps =>
      if pat.isPrefixOf (c :: rest) then
        rep ++ pyReplaceAux pat rep fuel (rest.drop ps.length)
      else
        c :: pyReplaceAux pat rep fuel rest

/-- Python `s.replace(pat, rep)`. -/
def pyReplace (s pat rep : String) : String :=
  ⟨pyReplaceAux pat.data rep.data s.data.length s.data⟩

/-- Python `s.split()` with no separator: split on whitespace runs,
discarding empty pieces. -/
def pySplit (s : String) : List String :=
  ((s.data.splitOnP Char.isWhitespace).filter (fun w => w ≠ [])).map (fun w => ⟨w⟩)

/-- Python `round(x, 1)` modelled over ℚ: round `10*x` to the nearest integer
and divide by 10.  (Exact half-way cases use round-half-up rather than
Python's round-half-to-even; no half-way case arises in any claim instance.) -/
def round1 (q : ℚ) : ℚ := ((⌊10 * q + 1 / 2⌋ : ℤ) : ℚ) / 10

/-! ### Data model

Python dicts flowing through the pipeline, as structures.  Floats are
rationals; a Google rating of `None` is modelled as `0` (the code reads it
with `google_data.get('rating', 0)` and `calculate_google_score` tests
`not rating`, which is exactly the `== 0` test on a number). -/

/-- Dict returned by `GooglePlacesService.search_place`
(`backend/google_places.py`). -/
structure GoogleData where
  name : String
  rating : ℚ
  review_count : Nat
  types : List String
  address : String
  place_id : String

/-- One entry of the `reddit_locations` list built in
`get_top_locations_by_score` (`backend/reddit_scraper.py` line 448):
keys `name`, `score`, `mentions`, `sources` — and no `context` key. -/
structure RedditLocation where
  name : String
  score : ℚ
  mentions : Nat
  sources : List String

/-- Dict built in `_validate_locations_with_google_places`
(`backend/reddit_scraper.py` line 510). -/
structure ValidatedLocation where
  name : String
  score : ℚ
  reddit_score : ℚ
  google_score : ℚ
  context_boost : ℚ
  type_boost : ℚ
  mentions : Nat
  sources : List String
  google_rating : ℚ
  google_reviews : Nat
  google_types : List String
  address : String
  place_id : String
  validated : Bool

/-- A top-level comment dict (`body`, `score`, `author`). -/
structure Comment where
  body : String
  score : Int
  author : String

/-- One element of the `results` list consumed by
`get_top_locations_by_score`.  `city_context` models the optional
`'city_context'` key (read with `.get('city_context', '')`); the entry
point `extract_top_locations_from_url` builds results without that key,
i.e. with `city_context = ""`. -/
structure Result where
  title : String
  score : Int
  locations : List String
  top_comments : List Comment
  url : String
  city_context : String

/-- Dict returned by `get_submission_with_comments`. -/
structure SubmissionData where
  title : String
  selftext : String
  score : Int
  url : String
  comments : List Comment

/-- A candidate mention produced by one extraction pass
(`{'name': ..., 'context': ..., 'confidence': ...}`). -/
structure Mention where
  name : String
  context : String
  confidence : ℚ

/-- One value of the `unique_locations` dict in
`_deduplicate_and_score_locations`. -/
structure UniqueEntry where
  name : String
  contexts : List String
  max_confidence : ℚ

/-- One value of the `location_scores` dict in
`get_top_locations_by_score`. -/
structure ScoreEntry where
  score : ℚ
  mentions : Nat
  sources : List String
  original_name : String

/-- One HTTP answer of the Google Places text-search endpoint, as consumed
by `search_place`: a 200 with a (possibly empty) `places` array, a 429
rate-limit, or another error status. -/
inductive ApiResponse where
  | ok (places : List GoogleData)
  | rateLimited
  | httpError (code : Nat)

/-! ### Static tables (`backend/reddit_scraper.py`, `backend/google_places.py`) -/

/-- `RedditScraper.KNOWN_VIEWPOINTS` (lines 15–21). -/
def KNOWN_VIEWPOINTS : List String :=
  ["communications hill", "mission peak", "mount hamilton", "mount umunhum",
   "twin peaks", "coit tower", "telegraph hill", "russian hill",
   "bernal heights", "tank hill", "corona heights", "mount diablo",
   "mount tamalpais", "lick observatory", "sierra vista", "grandview",
   "castle rock", "monument peak", "rose peak", "flag hill"]

/-- `prefixes_to_remove` in `_normalize_location_name` (line 390). -/
def prefixes_to_remove : List String :=
  ["the ", "maybe ", "perhaps ", "possibly ", "probably ", "about ", "called ", "near "]

/-- `elevation_keywords` in `_is_valid_google_place` (line 553). -/
def elevation_keywords : List String :=
  ["hill", "peak", "mount", "mountain", "heights", "ridge", "summit", "overlook", "vista"]

/-- `trail_keywords` in `_is_valid_google_place` (line 560). -/
def trail_keywords : List String :=
  ["trail", "path", "creek", "wilderness", "preserve"]

/-- `natural_types` in `_is_valid_google_place` (line 567). -/
def natural_types : List String :=
  ["natural_feature", "park", "tourist_attraction"]

/-- `blocked_types` in `_is_valid_google_place` (line 572). -/
def blocked_types : List String :=
  ["colloquial_area", "country", "administrative_area_level_1"]

/-- `high_priority_types` in `_get_type_boost` (line 607). -/
def high_priority_types : List String :=
  ["point_of_interest", "establishment", "tourist_attraction",
   "natural_feature", "amusement_park", "park"]

/-- `general_types` in `_get_type_boost` (line 614). -/
def general_types : List String :=
  ["political", "colloquial_area", "locality"]

/-! ### Normalizer / Deduplicator (`backend/reddit_scraper.py` 352–405) -/

/-- `RedditScraper._normalize_location_name`. -/
def normalize_location_name (location : String) : String :=
  let cleaned := pyStrip location
  let cleaned :=
    match prefixes_to_remove.find? (fun p => pyStartsWith (pyLower cleaned) p) with
    | some p => pyDrop cleaned (pyLen p)
    | none => cleaned
  let cleaned_lower := pyLower cleaned
  if pyStartsWith cleaned_lower "mt " || pyStartsWith cleaned_lower "mount " ||
      pyStartsWith cleaned_lower "mt. " then
    let parts := pySplit (pyReplace (pyReplace cleaned_lower "mount " "mt ") "mt. " "mt ")
    match parts with
    | _ :: second :: _ => "Mt " ++ pyTitle second
    | _ => pyTitle cleaned
  else
    pyTitle cleaned

/-- One iteration of the loop in `_deduplicate_and_score_locations`: update
the insertion-ordered `unique_locations` dict with one mention.  On a key
hit the display name and `max_confidence` change only when the new
confidence is strictly higher, and the context is always appended. -/
def insert_mention : List (String × UniqueEntry) → Mention → List (String × UniqueEntry)
  | [], loc =>
      [(normalize_location_name loc.name,
        { name := loc.name, contexts := [loc.context], max_confidence := loc.confidence })]
  | (k, e) :: rest, loc =>
      if k = normalize_location_name loc.name then
        (k, { name := if e.max_confidence < loc.confidence then loc.name else e.name,
              contexts := e.contexts ++ [loc.context],
              max_confidence :=
                if e.max_confidence < loc.confidence then loc.confidence
                else e.max_confidence }) :: rest
      else
        (k, e) :: insert_mention rest loc

/-- Stable insertion step of a descending sort: `x` (originally later) goes
in front of `y` only when `key y ≤ key x` is false, i.e. strictly greater
keys stay first and ties keep original order — the outcome of Python's
stable `sorted(..., reverse=True)` / `list.sort(..., reverse=True)`. -/
def insert_desc (key : α → ℚ) (x : α) : List α → List α
  | [] => [x]
  | y :: ys => if key y ≤ key x then x :: y :: ys else y :: insert_desc key x ys

/-- Stable descending sort by a rational key (the unique output every
stable descending sort — Python's included — produces). -/
def sort_desc (key : α → ℚ) : List α → List α
  | [] => []
  | x :: xs => insert_desc key x (sort_desc key xs)

/-- `RedditScraper._deduplicate_and_score_locations`: fold all mentions
into the dict, sort by `max_confidence` descending, return display names. -/
def deduplicate_and_score_locations (locations : List Mention) : List String :=
  let unique_locations := locations.foldl insert_mention []
  (sort_desc (fun p => p.2.max_confidence) unique_locations).map (fun p => p.2.name)

/-! ### Directory scoring (`backend/google_places.py` 122–156) -/

/-- `GooglePlacesService.calculate_google_score`.  `if not rating or
review_count == 0: return 0.0`; otherwise `(rating - 1) * 2.5` scaled by the
review-count confidence band and rounded to one decimal. -/
def calculate_google_score (rating : ℚ) (review_count : Nat) : ℚ :=
  if rating = 0 ∨ review_count = 0 then 0
  else
    let rating_score := (rating - 1) * (5 / 2)
    let confidence : ℚ :=
      if 500 ≤ review_count then 1
      else if 100 ≤ review_count then 9 / 10
      else if 50 ≤ review_count then 8 / 10
      else if 20 ≤ review_count then 7 / 10
      else if 10 ≤ review_count then 6 / 10
      else 4 / 10
    round1 (rating_score * confidence)

/-- The directory score exactly as §4.4 of the spec words it: the rating
"rescaled from its native 1–5 scale onto 0–10".  Used only to compare the
spec's formula with `calculate_google_score`. -/
def spec_rating_rescale (rating : ℚ) : ℚ := (rating - 1) / 4 * 10

/-- The spec's five review-count confidence bands
(≥500→1.0, ≥100→0.9, ≥50→0.8, ≥20→0.7, ≥10→0.6, else→0.4). -/
def spec_confidence (review_count : Nat) : ℚ :=
  if 500 ≤ review_count then 1
  else if 100 ≤ review_count then 9 / 10
  else if 50 ≤ review_count then 8 / 10
  else if 20 ≤ review_count then 7 / 10
  else if 10 ≤ review_count then 6 / 10
  else 4 / 10

/-! ### External Validator (`backend/reddit_scraper.py` 467–618) -/

/-- `category.lower() in ['viewpoints', 'viewpoint']`. -/
def category_is_viewpoint (category : String) : Bool :=
  ["viewpoints", "viewpoint"].contains (pyLower category)

/-- `category.lower() in ['hiking', 'hiking_trails', 'trails']`. -/
def category_is_hiking (category : String) : Bool :=
  ["hiking", "hiking_trails", "trails"].contains (pyLower category)

/-- The viewpoint-category leniency of `_is_valid_google_place`
(lines 550–556): neighborhood/political/sublocality areas whose name
contains an elevation keyword. -/
def viewpoint_leniency (place_types : List String) (name_lower category : String) : Bool :=
  category_is_viewpoint category &&
    (["neighborhood", "political", "sublocality"].any (fun t => place_types.contains t)) &&
    (elevation_keywords.any (fun k => pyContains name_lower k))

/-- The hiking-category leniency of `_is_valid_google_place`
(lines 559–562): names containing a trail keyword. -/
def hiking_leniency (name_lower category : String) : Bool :=
  category_is_hiking category && (trail_keywords.any (fun k => pyContains name_lower k))

/-- `RedditScraper._is_valid_google_place`, with the Python early-return
chain flattened into an if-chain (same case analysis, same order). -/
def is_valid_google_place (g : GoogleData) (original_name category : String) : Bool :=
  let review_count := g.review_count
  let place_types := g.types
  let original_name_lower := pyStrip (pyLower original_name)
  if KNOWN_VIEWPOINTS.contains original_name_lower then
    true
  else if viewpoint_leniency place_types original_name_lower category then
    true
  else if hiking_leniency original_name_lower category then
    true
  else if decide (review_count < 3) && !(natural_types.any (fun t => place_types.contains t)) then
    false
  else if (blocked_types.any (fun t => place_types.contains t)) && decide (review_count < 20) then
    false
  else if place_types.contains "political" && category_is_viewpoint category &&
      decide (0 ≤ review_count) then
    -- source: `if category viewpoints and review_count >= 0: return True`
    true
  else if place_types.contains "political" && decide (review_count < 20) then
    false
  else if place_types.contains "locality" && decide (review_count < 10) then
    false
  else
    true

/-- `RedditScraper._get_context_boost` (lines 592–602): dict lookup with
default 1.0. -/
def get_context_boost (context : String) : ℚ :=
  if context = "recommendation" then 3 / 2
  else if context = "descriptive" then 13 / 10
  else if context = "business" then 6 / 5
  else if context = "quoted" then 11 / 10
  else if context = "nature" then 1
  else if context = "list" then 9 / 10
  else 1

/-- `RedditScraper._get_type_boost` (lines 604–618). -/
def get_type_boost (place_types : List String) : ℚ :=
  if high_priority_types.any (fun t => place_types.contains t) then 6 / 5
  else if general_types.any (fun t => place_types.contains t) then 7 / 10
  else 1

/-- The body of the per-candidate loop of
`_validate_locations_with_google_places` (lines 471–527), with the Places
service modelled as the function `search`.  Note line 504: the context
boost is looked up with `location.get('context', 'nature')`, and the
`location` dict (a `RedditLocation`) carries no `context` key, so the
lookup argument is always `"nature"`. -/
def validate_one (search : String → Option GoogleData) (city_context category : String)
    (location : RedditLocation) : Option ValidatedLocation :=
  let search_query := pyStrip (location.name ++ " " ++ city_context)
  match search search_query with
  | none => none
  | some g =>
    if !(is_valid_google_place g location.name category) then
      none
    else
      let google_score := calculate_google_score g.rating g.review_count
      let reddit_score := location.score
      let context_boost := get_context_boost "nature"
      let type_boost := get_type_boost g.types
      let combined_score := reddit_score * (2 / 5) + google_score * (3 / 5)
      let final_score := combined_score * context_boost * type_boost
      some
        { name := g.name
          score := round1 final_score
          reddit_score := reddit_score
          google_score := google_score
          context_boost := context_boost
          type_boost := type_boost
          mentions := location.mentions
          sources := location.sources
          google_rating := g.rating
          google_reviews := g.review_count
          google_types := g.types
          address := g.address
          place_id := g.place_id
          validated := true }

/-- `RedditScraper._validate_locations_with_google_places`: validate each
candidate in order (dropped candidates produce nothing) and sort the
survivors by final score, descending. -/
def validate_locations_with_google_places (search : String → Option GoogleData)
    (locations : List RedditLocation) (city_context category : String) :
    List ValidatedLocation :=
  sort_desc ValidatedLocation.score
    (locations.filterMap (validate_one search city_context category))

/-! ### Scorer (`backend/reddit_scraper.py` 407–465) -/

/-- One `location_scores` dict update in `get_top_locations_by_score`: the
entry is created as `{'score': 0, 'mentions': 0, 'sources': [], ...}` on
first sight, then `score += w`, `mentions += 1`, `sources.append(src)`. -/
def addMention (m : List (String × ScoreEntry)) (key original_name source : String) (w : ℚ) :
    List (String × ScoreEntry) :=
  match m with
  | [] => [(key, { score := w, mentions := 1, sources := [source], original_name := original_name })]
  | (k, e) :: rest =>
    if k = key then
      (k, { e with score := e.score + w, mentions := e.mentions + 1,
                   sources := e.sources ++ [source] }) :: rest
    else
      (k, e) :: addMention rest key original_name source w

/-- Dict lookup of the accumulated community score (0 when absent). -/
def getScore : List (String × ScoreEntry) → String → ℚ
  | [], _ => 0
  | (k, e) :: rest, key => if k = key then e.score else getScore rest key

/-- One iteration of the outer loop of `get_top_locations_by_score`
(lines 411–439), processing one `result`: first every location of the post
text with weight `post_weight = max(1, result['score'] / 10)`, then, for
each top-level comment, every location of
`extract_locations_from_text(comment['body'])` (modelled by the `extract`
argument) with weight `max(1, comment['score'] / 5) * 1.5`. -/
def score_result_step (extract : String → List String)
    (acc : List (String × ScoreEntry)) (result : Result) : List (String × ScoreEntry) :=
  result.top_comments.foldl
    (fun acc comment =>
      (extract comment.body).foldl
        (fun acc location =>
          addMention acc (normalize_location_name location) location
            ("Comment (+" ++ toString comment.score ++ "): " ++
              pyTake comment.body 50 ++ "...")
            (max 1 ((comment.score : ℚ) / 5) * (3 / 2)))
        acc)
    (result.locations.foldl
      (fun acc location =>
        addMention acc (normalize_location_name location) location
          ("Post: " ++ pyTake result.title 50 ++ "...")
          (max 1 ((result.score : ℚ) / 10)))
      acc)

/-- The full accumulation loop of `get_top_locations_by_score`: the
`location_scores` dict after all results are processed. -/
def score_locations (extract : String → List String) (results : List Result) :
    List (String × ScoreEntry) :=
  results.foldl (score_result_step extract) []

/-- Weighted contribution of one comment to the candidate with normalized
key `key`, as §4.3 of the spec words it: `max(1, comment_score / 5) × 1.5`
per comment-sourced mention. -/
def comment_contribution (extract : String → List String) (comment : Comment) (key : String) : ℚ :=
  max 1 ((comment.score : ℚ) / 5) * (3 / 2) *
    (((extract comment.body).countP (fun l => decide (normalize_location_name l = key)) : Nat) : ℚ)

/-- Weighted contribution of one result (post text plus its comments) to
the candidate with normalized key `key`. -/
def result_contribution (extract : String → List String) (r : Result) (key : String) : ℚ :=
  max 1 ((r.score : ℚ) / 10) *
      ((r.locations.countP (fun l => decide (normalize_location_name l = key)) : Nat) : ℚ)
    + (r.top_comments.map (fun c => comment_contribution extract c key)).sum

/-- The community score as §4.3 of the spec defines it: the sum of all
weighted contributions across every mention that normalized to `key`. -/
def community_score_spec (extract : String → List String) (results : List Result) (key : String) : ℚ :=
  (results.map (fun r => result_contribution extract r key)).sum

/-- `RedditScraper.get_top_locations_by_score`: accumulate, sort by score
descending, keep the top `top_n` as `reddit_locations` (score rounded to
one decimal, top 3 sources), then hand them to the validator with
`city_context = results[0].get('city_context', '')`. -/
def get_top_locations_by_score (extract : String → List String)
    (search : String → Option GoogleData) (results : List Result) (top_n : Nat)
    (category : String) : List ValidatedLocation :=
  let location_scores := score_locations extract results
  let sorted_locations := sort_desc (fun p => p.2.score) location_scores
  let reddit_locations :=
    (sorted_locations.take top_n).map
      (fun p =>
        { name := p.2.original_name
          score := round1 p.2.score
          mentions := p.2.mentions
          sources := p.2.sources.take 3 : RedditLocation })
  let city_context := match results with
    | [] => ""
    | r :: _ => r.city_context
  validate_locations_with_google_places search reddit_locations city_context category

/-! ### Pipeline entry point (`backend/reddit_scraper.py` 620–678) -/

/-- `all_text` as built at lines 648–650: the post title and body, then
every comment body appended after a space. -/
def all_text_of (sub : SubmissionData) : String :=
  sub.comments.foldl (fun acc comment => acc ++ " " ++ comment.body)
    (sub.title ++ " " ++ sub.selftext)

/-- The single-element `results` list built at lines 656–662: the
post-level `locations` are extracted from `all_text` (comments included);
no `city_context` key is set. -/
def results_of (extract : String → List String) (sub : SubmissionData) (reddit_url : String) :
    List Result :=
  [{ title := sub.title
     score := sub.score
     locations := extract (all_text_of sub)
     top_comments := sub.comments
     url := reddit_url
     city_context := "" }]

/-- `RedditScraper.extract_top_locations_from_url`, from the point where
the submission data has been fetched (the URL parsing, metadata decoration
and database write are I/O glue around this call). -/
def extract_top_locations_from_data (extract : String → List String)
    (search : String → Option GoogleData) (sub : SubmissionData)
    (reddit_url category : String) (target_count : Nat) : List ValidatedLocation :=
  get_top_locations_by_score extract search (results_of extract sub reddit_url)
    target_count category

/-! ### Places search call (`backend/google_places.py` 17–94) -/

/-- `GooglePlacesService.search_place`, instrumented with the number of
HTTP requests issued.  `responses` is the sequence of answers the endpoint
would give to successive requests; the function issues exactly one request
(after its fixed 1-second pacing sleep).  A 200 takes the first entry of
the `places` array; a 429 prints, sleeps 2 seconds and returns `None`
without issuing another request; any other status returns `None`. -/
def search_place (has_api_key : Bool) (responses : List ApiResponse) :
    Option GoogleData × Nat :=
  if !has_api_key then (none, 0)
  else
    match responses with
    | [] => (none, 1)
    | ApiResponse.ok places :: _ => (places.head?, 1)
    | ApiResponse.rateLimited :: _ => (none, 1)
    | ApiResponse.httpError _ :: _ => (none, 1)

/-! ### Concrete instances used by witnesses and counterexamples -/

/-- An extractor that finds one "Mission Peak" mention in any text. -/
def extract_mission_peak : String → List String := fun _ => ["Mission Peak"]

/-- An extractor that finds nothing (used where no comment text is mined). -/
def extract_nothing : String → List String := fun _ => []

def g1 : GoogleData :=
  { name := "Mission Peak", rating := 5, review_count := 1000,
    types := ["park"], address := "Fremont, CA", place_id := "pid1" }

def search1 : String → Option GoogleData := fun _ => some g1

def loc1 : RedditLocation := { name := "Mission Peak", score := 10, mentions := 2, sources := [] }

/-- The Validated Location emitted for `loc1` (the option is `some` by
computation). -/
def c1_v : ValidatedLocation := (validate_one search1 "" "" loc1).get (by rfl)

/-- A mention mined with the `recommendation` context tag. -/
def mention_rec : Mention :=
  { name := "Mission Peak", context := "recommendation", confidence := 9 / 10 }

def g2 : GoogleData :=
  { name := "Mission Peak Regional Preserve", rating := 9 / 2, review_count := 2000,
    types := ["park", "point_of_interest"], address := "Fremont, CA", place_id := "pid2" }

def search2 : String → Option GoogleData := fun _ => some g2

/-- A source post whose only location mention was mined with the
`recommendation` context (fed through the deduplicator exactly as
`extract_locations_from_text` does). -/
def r2 : Result :=
  { title := "Best views?", score := 10,
    locations := deduplicate_and_score_locations [mention_rec],
    top_comments := [], url := "u2", city_context := "San Jose, CA" }

/-- A full scoring-and-validation run over `r2`. -/
def c2_run : List ValidatedLocation :=
  get_top_locations_by_score extract_nothing search2 [r2] 10 "viewpoints"

def loc2 : RedditLocation := { name := "Mission Peak", score := 2, mentions := 1, sources := [] }

def c2_v : ValidatedLocation := (validate_one search2 "" "viewpoints" loc2).get (by rfl)

def g4 : GoogleData :=
  { name := "Twin Peaks", rating := 0, review_count := 0,
    types := ["political"], address := "San Francisco, CA", place_id := "pid4" }

def g5 : GoogleData :=
  { name := "Central Plaza", rating := 4, review_count := 25,
    types := ["political"], address := "", place_id := "pid5" }

def g5c : GoogleData :=
  { name := "Downtown District", rating := 0, review_count := 0,
    types := ["political"], address := "", place_id := "pid5c" }

def g6 : GoogleData :=
  { name := "Tiny Cafe", rating := 9 / 2, review_count := 2,
    types := ["point_of_interest"], address := "", place_id := "pid6" }

def search6 : String → Option GoogleData :=
  fun q => if q = "Tiny Cafe" then some g6 else none

def loc6 : RedditLocation := { name := "Tiny Cafe", score := 3, mentions := 1, sources := [] }

/-- A post of score 20 mentioning "Mission Peak" once, with one comment of
score 10 whose body also mentions it once (via `extract_mission_peak`). -/
def r8 : Result :=
  { title := "Best hikes", score := 20, locations := ["Mission Peak"],
    top_comments := [{ body := "Mission Peak is great", score := 10, author := "u1" }],
    url := "u8", city_context := "" }

def g9 : GoogleData :=
  { name := "Mission Peak", rating := 9 / 2, review_count := 1200,
    types := ["park"], address := "", place_id := "pid9" }

def sub10 : SubmissionData :=
  { title := "Views", selftext := "Looking for views", score := 20, url := "u10",
    comments := [{ body := "Try Mission Peak", score := 10, author := "u2" }] }

/-! ### Helper lemmas -/

theorem mem_insert_desc {α : Type} (key : α → ℚ) (x a : α) (l : List α) :
    a ∈ insert_desc key x l ↔ a = x ∨ a ∈ l := by
  induction l with
  | nil => simp [insert_desc]
  | cons y ys ih =>
    simp only [insert_desc]
    split
    · simp
    · simp only [List.mem_cons, ih]
      tauto

theorem mem_sort_desc {α : Type} (key : α → ℚ) (a : α) (l : List α) :
    a ∈ sort_desc key l ↔ a ∈ l := by
  induction l with
  | nil => simp [sort_desc]
  | cons x xs ih => simp [sort_desc, mem_insert_desc, ih]

theorem getScore_addMention (m : List (String × ScoreEntry)) (key orig src k : String) (w : ℚ) :
    getScore (addMention m key orig src w) k = getScore m k + if key = k then w else 0 := by
  induction m with
  | nil =>
    by_cases h : key = k <;> simp [addMention, getScore, h]
  | cons p rest ih =>
    obtain ⟨k1, e⟩ := p
    by_cases h1 : k1 = key
    · subst h1
      by_cases h2 : k1 = k
      · simp [addMention, getScore, h2]
      · simp [addMention, getScore, h2]
    · by_cases h2 : k1 = k
      · subst h2
        have hk : ¬ key = k1 := fun hh => h1 hh.symm
        simp [addMention, getScore, h1, hk]
      · simp [addMention, getScore, h1, h2, ih]

theorem getScore_foldl_mentions (locs : List String) (m : List (String × ScoreEntry))
    (src k : String) (w : ℚ) :
    getScore
        (locs.foldl
          (fun acc location =>
            addMention acc (normalize_location_name location) location src w) m) k
      = getScore m k
        + w * ((locs.countP (fun l => decide (normalize_location_name l = k)) : Nat) : ℚ) := by
  induction locs generalizing m with
  | nil => simp
  | cons x xs ih =>
    simp only [List.foldl_cons]
    rw [ih, getScore_addMention]
    by_cases h : normalize_location_name x = k
    · rw [List.countP_cons_of_pos _ _ (by simpa using h), if_pos h]
      push_cast
      ring
    · rw [List.countP_cons_of_neg _ _ (by simpa using h), if_neg h]
      ring

theorem getScore_foldl_comments (extract : String → List String) (comments : List Comment)
    (m : List (String × ScoreEntry)) (k : String) :
    getScore
        (comments.foldl
          (fun acc comment =>
            (extract comment.body).foldl
              (fun acc location =>
                addMention acc (normalize_location_name location) location
                  ("Comment (+" ++ toString comment.score ++ "): " ++
                    pyTake comment.body 50 ++ "...")
                  (max 1 ((comment.score : ℚ) / 5) * (3 / 2)))
              acc) m) k
      = getScore m k + (comments.map (fun c => comment_contribution extract c k)).sum := by
  induction comments generalizing m with
  | nil => simp
  | cons c cs ih =>
    simp only [List.foldl_cons, List.map_cons, List.sum_cons]
    rw [ih, getScore_foldl_mentions]
    unfold comment_contribution
    ring

theorem getScore_score_result_step (extract : String → List String)
    (m : List (String × ScoreEntry)) (r : Result) (k : String) :
    getScore (score_result_step extract m r) k = getScore m k + result_contribution extract r k := by
  unfold score_result_step
  rw [getScore_foldl_comments, getScore_foldl_mentions]
  unfold result_contribution
  ring

theorem getScore_foldl_results (extract : String → List String) (results : List Result)
    (m : List (String × ScoreEntry)) (k : String) :
    getScore (results.foldl (score_result_step extract) m) k
      = getScore m k + community_score_spec extract results k := by
  induction results generalizing m with
  | nil => simp [community_score_spec]
  | cons r rs ih =>
    simp only [List.foldl_cons, community_score_spec, List.map_cons, List.sum_cons]
    rw [ih, getScore_score_result_step]
    simp only [community_score_spec]
    ring

theorem getScore_score_locations (extract : String → List String) (results : List Result)
    (k : String) :
    getScore (score_locations extract results) k = community_score_spec extract results k := by
  unfold score_locations
  rw [getScore_foldl_results]
  simp [getScore]

theorem validate_one_eq_some (search : String → Option GoogleData)
    (city_context category : String) (loc : RedditLocation) (v : ValidatedLocation)
    (h : validate_one search city_context category loc = some v) :
    ∃ g, search (pyStrip (loc.name ++ " " ++ city_context)) = some g ∧
      is_valid_google_place g loc.name category = true ∧
      v = { name := g.name
            score := round1 ((loc.score * (2 / 5) +
                      calculate_google_score g.rating g.review_count * (3 / 5)) *
                      get_context_boost "nature" * get_type_boost g.types)
            reddit_score := loc.score
            google_score := calculate_google_score g.rating g.review_count
            context_boost := get_context_boost "nature"
            type_boost := get_type_boost g.types
            mentions := loc.mentions
            sources := loc.sources
            google_rating := g.rating
            google_reviews := g.review_count
            google_types := g.types
            address := g.address
            place_id := g.place_id
            validated := true } := by
  simp only [validate_one] at h
  split at h
  · simp at h
  · rename_i g hs
    split at h
    · simp at h
    · rename_i hcond
      have hv : is_valid_google_place g loc.name category = true := by
        revert hcond
        cases is_valid_google_place g loc.name category <;> simp
      exact ⟨g, hs, hv, (Option.some.inj h).symm⟩

theorem insert_mention_keys (m : List (String × UniqueEntry)) (loc : Mention) :
    (insert_mention m loc).map Prod.fst
      = if normalize_location_name loc.name ∈ m.map Prod.fst then m.map Prod.fst
        else m.map Prod.fst ++ [normalize_location_name loc.name] := by
  induction m with
  | nil => simp [insert_mention]
  | cons p rest ih =>
    obtain ⟨k, e⟩ := p
    by_cases h : k = normalize_location_name loc.name
    · simp [insert_mention, h]
    · have h2 : ¬ normalize_location_name loc.name = k := fun hh => h hh.symm
      simp only [insert_mention, if_neg h, List.map_cons, ih, List.mem_cons, h2, false_or]
      by_cases hm : normalize_location_name loc.name ∈ rest.map Prod.fst
      · simp [hm]
      · simp [hm]

theorem foldl_insert_mention_keys_nodup (ms : List Mention)
    (acc : List (String × UniqueEntry)) (hacc : (acc.map Prod.fst).Nodup) :
    ((ms.foldl insert_mention acc).map Prod.fst).Nodup := by
  induction ms generalizing acc with
  | nil => simpa using hacc
  | cons loc rest ih =>
    simp only [List.foldl_cons]
    refine ih _ ?_
    rw [insert_mention_keys]
    by_cases hm : normalize_location_name loc.name ∈ acc.map Prod.fst
    · rw [if_pos hm]
      exact hacc
    · rw [if_neg hm]
      have hdisj : (acc.map Prod.fst).Disjoint [normalize_location_name loc.name] := by
        intro x hx hx2
        simp only [List.mem_singleton] at hx2
        subst hx2
        exact hm hx
      exact List.nodup_append.mpr ⟨hacc, List.nodup_singleton _, hdisj⟩

/-! ### Claims -/

/-- C1: every candidate accepted by the External Validator is emitted with
combined score `round((community_score × 0.4 + directory_score × 0.6) ×
context_boost × type_boost, 1)` (the boosts being the ones recorded on the
emitted record); in particular community 10, directory 8, boosts 1.5 and
1.2 give 15.8. -/
theorem c1_combined_score_formula :
    (∀ (search : String → Option GoogleData) (locations : List RedditLocation)
        (city_context category : String) (v : ValidatedLocation),
        v ∈ validate_locations_with_google_places search locations city_context category →
        v.score = round1 ((v.reddit_score * (2 / 5) + v.google_score * (3 / 5)) *
          v.context_boost * v.type_boost))
    ∧ round1 (((10 : ℚ) * (2 / 5) + 8 * (3 / 5)) * (3 / 2) * (6 / 5)) = 158 / 10 := by
  constructor
  · intro search locations city_context category v hv
    unfold validate_locations_with_google_places at hv
    obtain ⟨loc, _, hsome⟩ := List.mem_filterMap.mp ((mem_sort_desc _ _ _).mp hv)
    obtain ⟨g, _, _, hveq⟩ := validate_one_eq_some _ _ _ _ _ hsome
    subst hveq
    rfl
  · norm_num [round1]

theorem c1_witness :
    c1_v ∈ validate_locations_with_google_places search1 [loc1] "" "" ∧
    c1_v.score = round1 ((c1_v.reddit_score * (2 / 5) + c1_v.google_score * (3 / 5)) *
      c1_v.context_boost * c1_v.type_boost) := by
  have hmem : c1_v ∈ validate_locations_with_google_places search1 [loc1] "" "" := by
    show c1_v ∈ [c1_v]
    exact List.mem_singleton_self _
  exact ⟨hmem, c1_combined_score_formula.1 search1 [loc1] "" "" c1_v hmem⟩

/-- C2 counterexample: a candidate mined solely with the `recommendation`
context tag (boost 1.5 in the table) is validated with context boost 1, not
1.5 — the `reddit_locations` dicts carry no `context` key, so
`location.get('context', 'nature')` always yields the default. -/
theorem c2_counterexample :
    deduplicate_and_score_locations [mention_rec] = ["Mission Peak"] ∧
    mention_rec.context = "recommendation" ∧
    c2_run.map ValidatedLocation.context_boost = [1] ∧
    get_context_boost "recommendation" = 3 / 2 ∧
    ((1 : ℚ)) ≠ 3 / 2 := by
  refine ⟨rfl, rfl, rfl, rfl, by norm_num⟩

/-- C2 (amended): the context boost applied to every accepted candidate is
the constant 1.0 — the dominant mining context never reaches the validator
because `_deduplicate_and_score_locations` returns bare names and the
validator looks the boost up with the `'nature'` default. -/
theorem c2_amended_context_boost_constant :
    ∀ (search : String → Option GoogleData) (locations : List RedditLocation)
      (city_context category : String) (v : ValidatedLocation),
      v ∈ validate_locations_with_google_places search locations city_context category →
      v.context_boost = 1 := by
  intro search locations city_context category v hv
  unfold validate_locations_with_google_places at hv
  obtain ⟨loc, _, hsome⟩ := List.mem_filterMap.mp ((mem_sort_desc _ _ _).mp hv)
  obtain ⟨g, _, _, hveq⟩ := validate_one_eq_some _ _ _ _ _ hsome
  subst hveq
  rfl

theorem c2_amended_witness :
    c2_v ∈ validate_locations_with_google_places search2 [loc2] "" "viewpoints" ∧
    c2_v.context_boost = 1 := by
  have hmem : c2_v ∈ validate_locations_with_google_places search2 [loc2] "" "viewpoints" := by
    show c2_v ∈ [c2_v]
    exact List.mem_singleton_self _
  exact ⟨hmem, c2_amended_context_boost_constant search2 [loc2] "" "viewpoints" c2_v hmem⟩

/-- C3 counterexample: at rating 5 with 0 reviews the claimed formula
(rescaled rating times the `else → 0.4` band) yields 4.0, but
`calculate_google_score` returns 0.0 (its `not rating or review_count == 0`
guard). -/
theorem c3_counterexample :
    calculate_google_score 5 0 = 0 ∧
    round1 (spec_rating_rescale 5 * spec_confidence 0) = 4 ∧
    ((0 : ℚ)) ≠ 4 := by
  refine ⟨?_, ?_, by norm_num⟩
  · simp [calculate_google_score]
  · norm_num [round1, spec_rating_rescale, spec_confidence]

/-- C3 (amended): for nonzero rating and nonzero review count the directory
score is the rating rescaled from 1–5 onto 0–10 times the five-band
review-count confidence factor, rounded to one decimal; when the rating is
absent/zero or the review count is zero the score is 0.0 instead. -/
theorem c3_amended_directory_score :
    (∀ (rating : ℚ) (review_count : Nat), rating ≠ 0 → review_count ≠ 0 →
      calculate_google_score rating review_count =
        round1 (spec_rating_rescale rating * spec_confidence review_count)) ∧
    (∀ review_count, calculate_google_score 0 review_count = 0) ∧
    (∀ rating, calculate_google_score rating 0 = 0) := by
  refine ⟨?_, ?_, ?_⟩
  · intro rating review_count h1 h2
    simp only [calculate_google_score, spec_rating_rescale, spec_confidence]
    rw [if_neg (not_or.mpr ⟨h1, h2⟩)]
    congr 1
    ring
  · intro review_count
    simp [calculate_google_score]
  · intro rating
    simp [calculate_google_score]

theorem c3_amended_witness :
    calculate_google_score 5 100 = round1 (spec_rating_rescale 5 * spec_confidence 100) :=
  c3_amended_directory_score.1 5 100 (by simp) (by decide)

/-- C4: a candidate whose lowercased, stripped name is in
`KNOWN_VIEWPOINTS` is accepted by `_is_valid_google_place` whatever its
review count, place types and category. -/
theorem c4_known_landmark_override :
    ∀ (g : GoogleData) (name category : String),
      KNOWN_VIEWPOINTS.contains (pyStrip (pyLower name)) = true →
      is_valid_google_place g name category = true := by
  intro g name category h
  have h2 : pyStrip (pyLower name) ∈ KNOWN_VIEWPOINTS := by simpa using h
  unfold is_valid_google_place
  simp [h2]

theorem c4_witness :
    KNOWN_VIEWPOINTS.contains (pyStrip (pyLower "Twin Peaks")) = true ∧
    g4.review_count = 0 ∧ g4.types = ["political"] ∧
    is_valid_google_place g4 "Twin Peaks" "" = true :=
  ⟨by decide, rfl, rfl, c4_known_landmark_override g4 "Twin Peaks" "" (by decide)⟩

/-- C5 counterexample: a `political`-typed candidate outside the allow-list
is NOT accepted unconditionally for the viewpoints category — with 0
reviews and no elevation keyword in its name, the ≥3-review floor drops it
before the political rule is reached. -/
theorem c5_counterexample :
    g5c.types.contains "political" = true ∧
    KNOWN_VIEWPOINTS.contains (pyStrip (pyLower "Downtown")) = false ∧
    is_valid_google_place g5c "Downtown" "viewpoints" = false := by
  refine ⟨rfl, by decide, by decide⟩

/-- C5 (amended): the political rule applies only once the earlier rules
pass over the candidate (not in the allow-list, no keyword leniency, no
natural/blocked/locality types): then a viewpoints-category candidate is
accepted iff it clears the ≥3-review floor, and any other category is
accepted iff its review count is at least 20. -/
theorem c5_amended_political_rule :
    ∀ (g : GoogleData) (name category : String),
      KNOWN_VIEWPOINTS.contains (pyStrip (pyLower name)) = false →
      g.types.contains "political" = true →
      viewpoint_leniency g.types (pyStrip (pyLower name)) category = false →
      hiking_leniency (pyStrip (pyLower name)) category = false →
      natural_types.any (fun t => g.types.contains t) = false →
      blocked_types.any (fun t => g.types.contains t) = false →
      g.types.contains "locality" = false →
      is_valid_google_place g name category =
        (if category_is_viewpoint category then decide (3 ≤ g.review_count)
         else decide (20 ≤ g.review_count)) := by
  intro g name category hknown hpol hvl hhl hnat hblk hloc
  have h0 : decide (0 ≤ g.review_count) = true := by simp
  simp only [is_valid_google_place, hknown, hpol, hvl, hhl, hnat, hblk, hloc, h0,
    Bool.false_eq_true, if_false, Bool.not_false, Bool.and_true, Bool.true_and,
    Bool.false_and, Bool.and_false]
  by_cases h3 : g.review_count < 3
  · have h3a : ¬ 3 ≤ g.review_count := by omega
    have h20a : ¬ 20 ≤ g.review_count := by omega
    simp [h3, h3a, h20a]
  · have h3a : 3 ≤ g.review_count := by omega
    by_cases h20 : g.review_count < 20
    · have h20a : ¬ 20 ≤ g.review_count := by omega
      simp [h3, h3a, h20, h20a]
    · have h20a : 20 ≤ g.review_count := by omega
      simp [h3, h3a, h20, h20a]

theorem c5_amended_witness :
    g5.types.contains "political" = true ∧
    is_valid_google_place g5 "Plaza" "food" =
      (if category_is_viewpoint "food" then decide (3 ≤ g5.review_count)
       else decide (20 ≤ g5.review_count)) :=
  ⟨rfl, c5_amended_political_rule g5 "Plaza" "food" (by decide) rfl (by decide) (by decide)
    (by decide) (by decide) (by decide)⟩

/-- C6: a candidate outside the allow-list and outside the category keyword
leniencies whose directory match has fewer than 3 reviews and none of the
natural-feature/park/tourist-attraction types is rejected, and the
validator loop emits no Validated Location for it. -/
theorem c6_minimum_review_floor :
    ∀ (g : GoogleData) (name category : String),
      KNOWN_VIEWPOINTS.contains (pyStrip (pyLower name)) = false →
      viewpoint_leniency g.types (pyStrip (pyLower name)) category = false →
      hiking_leniency (pyStrip (pyLower name)) category = false →
      g.review_count < 3 →
      natural_types.any (fun t => g.types.contains t) = false →
      is_valid_google_place g name category = false ∧
        ∀ (search : String → Option GoogleData) (city_context : String) (loc : RedditLocation),
          loc.name = name →
          search (pyStrip (loc.name ++ " " ++ city_context)) = some g →
          validate_one search city_context category loc = none := by
  intro g name category hknown hvl hhl h3 hnat
  have hvalid : is_valid_google_place g name category = false := by
    simp only [is_valid_google_place, hknown, hvl, hhl, hnat, Bool.false_eq_true, if_false,
      Bool.not_false, Bool.and_true]
    simp [h3]
  refine ⟨hvalid, ?_⟩
  intro search city_context loc hname hsearch
  cases hh : validate_one search city_context category loc with
  | none => rfl
  | some v =>
    exfalso
    obtain ⟨g2, hs2, hv2, _⟩ := validate_one_eq_some _ _ _ _ _ hh
    rw [hsearch] at hs2
    obtain rfl := Option.some.inj hs2
    rw [hname, hvalid] at hv2
    exact Bool.false_ne_true hv2

theorem c6_witness :
    g6.review_count = 2 ∧ g6.types = ["point_of_interest"] ∧
    is_valid_google_place g6 "Tiny Cafe" "" = false ∧
    validate_one search6 "" "" loc6 = none := by
  have h := c6_minimum_review_floor g6 "Tiny Cafe" "" (by decide) (by decide) (by decide)
    (by decide) (by decide)
  exact ⟨rfl, rfl, h.1, h.2 search6 "" loc6 rfl rfl⟩

/-- C7: "Mt. Hamilton", "Mount Hamilton" and "mt hamilton" all normalize to
the key "Mt Hamilton"; the dedup dict never holds two entries with the same
key, and running the deduplicator on the three surface forms yields exactly
one candidate. -/
theorem c7_mount_hamilton_merges :
    normalize_location_name "Mt. Hamilton" = "Mt Hamilton" ∧
    normalize_location_name "Mount Hamilton" = "Mt Hamilton" ∧
    normalize_location_name "mt hamilton" = "Mt Hamilton" ∧
    (∀ ms : List Mention,
      ((ms.foldl insert_mention []).map Prod.fst).count "Mt Hamilton" ≤ 1) ∧
    deduplicate_and_score_locations
        [{ name := "Mt. Hamilton", context := "nature", confidence := 7 / 10 },
         { name := "Mount Hamilton", context := "nature", confidence := 7 / 10 },
         { name := "mt hamilton", context := "nature", confidence := 7 / 10 }]
      = ["Mt. Hamilton"] := by
  have e1 : normalize_location_name "Mt. Hamilton" = "Mt Hamilton" := by decide
  have e2 : normalize_location_name "Mount Hamilton" = "Mt Hamilton" := by decide
  have e3 : normalize_location_name "mt hamilton" = "Mt Hamilton" := by decide
  refine ⟨e1, e2, e3, ?_, ?_⟩
  · intro ms
    exact List.nodup_iff_count_le_one.mp (foldl_insert_mention_keys_nodup ms [] (by simp)) _
  · simp [deduplicate_and_score_locations, insert_mention, sort_desc, insert_desc,
      e1, e2, e3, lt_self_iff_false]

/-- C8: the community score of a candidate is the sum over all results of
`max(1, post_score / 10)` per post-sourced mention and
`max(1, comment_score / 5) × 1.5` per comment-sourced mention normalizing
to it; in particular a post of score 20 and a comment of score 10, each
mentioning "Mission Peak" once, give community score 5. -/
theorem c8_community_score_weights :
    (∀ (extract : String → List String) (results : List Result) (key : String),
      getScore (score_locations extract results) key
        = community_score_spec extract results key) ∧
    getScore (score_locations extract_mission_peak [r8]) "Mission Peak" = 5 := by
  refine ⟨getScore_score_locations, ?_⟩
  rw [getScore_score_locations]
  have e : normalize_location_name "Mission Peak" = "Mission Peak" := by decide
  simp [community_score_spec, result_contribution, comment_contribution, r8,
    extract_mission_peak, e]
  rw [show ((20 : ℚ)) / 10 = 2 by norm_num, show ((10 : ℚ)) / 5 = 2 by norm_num,
    max_eq_right (by norm_num : (1 : ℚ) ≤ 2)]
  norm_num

/-- C9 counterexample: a rate-limited first request is answered with no
retry — `search_place` issues exactly 1 request and reports no match, even
though a retry (second request) would have succeeded. -/
theorem c9_counterexample :
    search_place true [ApiResponse.rateLimited, ApiResponse.ok [g9]] = (none, 1) ∧
    (search_place true [ApiResponse.ok [g9]]).1 = some g9 ∧
    (1 : Nat) ≠ 2 := by
  refine ⟨rfl, rfl, by decide⟩

/-- C9 (amended): a rate-limit response makes `search_place` wait its fixed
2-second backoff and return `None` immediately — no retry is issued — and
the validator then treats the candidate as having no directory match
(dropped, no fatal error). -/
theorem c9_amended_no_retry :
    (∀ rest : List ApiResponse,
      search_place true (ApiResponse.rateLimited :: rest) = (none, 1)) ∧
    (∀ (city_context category : String) (loc : RedditLocation) (rest : List ApiResponse),
      validate_one (fun _ => (search_place true (ApiResponse.rateLimited :: rest)).1)
        city_context category loc = none) := by
  constructor
  · intro rest
    rfl
  · intro city_context category loc rest
    rfl

/-- C10: the entry point extracts the post-level location list from the
concatenation of title, body and all comment bodies, so the community score
of key `k` is `max(1, post_score/10)` times its count in that combined
extraction plus the comment contributions — and whenever the combined
extraction finds the location at all, the score strictly exceeds the
comment contributions alone. -/
theorem c10_comment_mentions_accrue_post_weight :
    (∀ (extract : String → List String) (sub : SubmissionData) (reddit_url key : String),
      getScore (score_locations extract (results_of extract sub reddit_url)) key
        = max 1 ((sub.score : ℚ) / 10) *
            (((extract (all_text_of sub)).countP
                (fun l => decide (normalize_location_name l = key)) : Nat) : ℚ)
          + (sub.comments.map (fun c => comment_contribution extract c key)).sum) ∧
    (∀ (extract : String → List String) (sub : SubmissionData) (reddit_url key : String),
      1 ≤ (extract (all_text_of sub)).countP (fun l => decide (normalize_location_name l = key)) →
      (sub.comments.map (fun c => comment_contribution extract c key)).sum
        < getScore (score_locations extract (results_of extract sub reddit_url)) key) := by
  have hmain : ∀ (extract : String → List String) (sub : SubmissionData) (reddit_url key : String),
      getScore (score_locations extract (results_of extract sub reddit_url)) key
        = max 1 ((sub.score : ℚ) / 10) *
            (((extract (all_text_of sub)).countP
                (fun l => decide (normalize_location_name l = key)) : Nat) : ℚ)
          + (sub.comments.map (fun c => comment_contribution extract c key)).sum := by
    intro extract sub reddit_url key
    rw [getScore_score_locations]
    simp [community_score_spec, results_of, result_contribution]
  refine ⟨hmain, ?_⟩
  intro extract sub reddit_url key hcount
  rw [hmain extract sub reddit_url key]
  have h1 : (1 : ℚ) ≤ max 1 ((sub.score : ℚ) / 10) := le_max_left _ _
  have h2 : (1 : ℚ) ≤ (((extract (all_text_of sub)).countP
      (fun l => decide (normalize_location_name l = key)) : Nat) : ℚ) := by
    exact_mod_cast hcount
  have h3 : (1 : ℚ) * 1 ≤ max 1 ((sub.score : ℚ) / 10) *
      (((extract (all_text_of sub)).countP
          (fun l => decide (normalize_location_name l = key)) : Nat) : ℚ) :=
    mul_le_mul h1 h2 (by norm_num) (le_trans (by norm_num) h1)
  linarith

theorem c10_witness :
    (sub10.comments.map (fun c => comment_contribution extract_mission_peak c "Mission Peak")).sum
      < getScore (score_locations extract_mission_peak
          (results_of extract_mission_peak sub10 "u10")) "Mission Peak" :=
  c10_comment_mentions_accrue_post_weight.2 extract_mission_peak sub10 "u10" "Mission Peak"
    (by decide)

end MommyNature
